import Mathlib

/-!
Verification development for the booty-hunt game server core
(`src/server/src`): the weekly-rotation engine (regatta seeds, tide
omens), the run ledger with snapshot ranking, and the signal-fire
redemption state machine.  Rust `i64`/`u64` values are modelled as `Int`
with explicit wrap-around where the source can overflow; `f64` fields
(`heat_cost`, `time_played`, `max_heat`) are only ever stored and passed
through, never computed with, so they are modelled as `Rat`; SQLite
tables are lists of rows, and each `db.with_conn` block is one atomic
step on the whole state.
-/

namespace BootyHunt

/-! ## SHA-256 (the `sha2` crate's `Sha256`, as used by the services)

A byte is a `Nat < 256`; a word is a `Nat < 2^32` maintained by explicit
`% 2^32` reductions.  All recursion is structural so every digest below
reduces inside the kernel. -/

/-- 2^32, the word modulus. -/
def M32 : Nat := 4294967296

/-- Right rotation of a 32-bit word by `n` bits. -/
def rotr (n x : Nat) : Nat := ((x >>> n) ||| (x <<< (32 - n))) % M32

def smallSigma0 (x : Nat) : Nat := (rotr 7 x) ^^^ (rotr 18 x) ^^^ (x >>> 3)

def smallSigma1 (x : Nat) : Nat := (rotr 17 x) ^^^ (rotr 19 x) ^^^ (x >>> 10)

def bigSigma0 (x : Nat) : Nat := (rotr 2 x) ^^^ (rotr 13 x) ^^^ (rotr 22 x)

def bigSigma1 (x : Nat) : Nat := (rotr 6 x) ^^^ (rotr 11 x) ^^^ (rotr 25 x)

/-- The 64 SHA-256 round constants (FIPS 180-4, written in decimal). -/
def shaK : List Nat :=
  [1116352408, 1899447441, 3049323471, 3921009573, 961987163, 1508970993,
   2453635748, 2870763221, 3624381080, 310598401, 607225278, 1426881987,
   1925078388, 2162078206, 2614888103, 3248222580, 3835390401, 4022224774,
   264347078, 604807628, 770255983, 1249150122, 1555081692, 1996064986,
   2554220882, 2821834349, 2952996808, 3210313671, 3336571891, 3584528711,
   113926993, 338241895, 666307205, 773529912, 1294757372, 1396182291,
   1695183700, 1986661051, 2177026350, 2456956037, 2730485921, 2820302411,
   3259730800, 3345764771, 3516065817, 3600352804, 4094571909, 275423344,
   430227734, 506948616, 659060556, 883997877, 958139571, 1322822218,
   1537002063, 1747873779, 1955562222, 2024104815, 2227730452, 2361852424,
   2428436474, 2756734187, 3204031479, 3329325298]

/-- The initial SHA-256 hash state (FIPS 180-4, written in decimal). -/
def shaH0 : List Nat :=
  [1779033703, 3144134277, 1013904242, 2773480762,
   1359893119, 2600822924, 528734635, 1541459225]

/-- Big-endian bytes (8 of them) of a 64-bit length field. -/
def beBytes8 (n : Nat) : List Nat :=
  [(n >>> 56) % 256, (n >>> 48) % 256, (n >>> 40) % 256, (n >>> 32) % 256,
   (n >>> 24) % 256, (n >>> 16) % 256, (n >>> 8) % 256, n % 256]

/-- Big-endian bytes (4 of them) of one 32-bit word. -/
def beBytes4 (n : Nat) : List Nat :=
  [(n >>> 24) % 256, (n >>> 16) % 256, (n >>> 8) % 256, n % 256]

/-- Group a byte list into big-endian 32-bit words (leftover bytes dropped;
blocks fed to it always have a multiple of 4). -/
def bytesToWords : List Nat → List Nat
  | a :: b :: c :: d :: rest => (a * 16777216 + b * 65536 + c * 256 + d) :: bytesToWords rest
  | _ => []

/-- SHA-256 message padding: `0x80`, zeros up to 56 mod 64, then the
bit length as 8 big-endian bytes. -/
def padMessage (msg : List Nat) : List Nat :=
  let z := (119 - msg.length % 64) % 64
  msg ++ (128 :: List.replicate z 0) ++ beBytes8 (msg.length * 8)

/-- Extend a 16-word schedule by `n` further words. -/
def extendSchedule : List Nat → Nat → List Nat
  | w, 0 => w
  | w, n + 1 =>
    let t := (smallSigma1 (w.getD (w.length - 2) 0) + w.getD (w.length - 7) 0 +
              smallSigma0 (w.getD (w.length - 15) 0) + w.getD (w.length - 16) 0) % M32
    extendSchedule (w ++ [t]) n

/-- One SHA-256 compression round on the state `[a,b,c,d,e,f,g,h]`. -/
def compressStep (s : List Nat) (kw : Nat × Nat) : List Nat :=
  match s with
  | [a, b, c, d, e, f, g, hh] =>
    let ch := (e &&& f) ^^^ ((4294967295 - e) &&& g)
    let maj := (a &&& b) ^^^ (a &&& c) ^^^ (b &&& c)
    let t1 := (hh + bigSigma1 e + ch + kw.1 + kw.2) % M32
    let t2 := (bigSigma0 a + maj) % M32
    [(t1 + t2) % M32, a, b, c, (d + t1) % M32, e, f, g]
  | other => other

/-- Process one 64-byte block into the running hash state. -/
def processBlock (h : List Nat) (block : List Nat) : List Nat :=
  let w := extendSchedule (bytesToWords block) 48
  let s := (shaK.zip w).foldl compressStep h
  (h.zip s).map (fun p => (p.1 + p.2) % M32)

/-- Split a byte list into 64-byte chunks (fuel-based so it kernel-reduces). -/
def chunks64Aux : Nat → List Nat → List (List Nat)
  | 0, _ => []
  | _, [] => []
  | fuel + 1, l => l.take 64 :: chunks64Aux fuel (l.drop 64)

/-- SHA-256 of a byte list, as the 32-byte digest. -/
def sha256 (msg : List Nat) : List Nat :=
  let padded := padMessage msg
  let blocks := chunks64Aux padded.length padded
  (blocks.foldl processBlock shaH0).flatMap beBytes4

/-- The bytes of a string, as `hasher.update(s.as_bytes())` sees them
(all strings hashed by the services are ASCII). -/
def strBytes (s : String) : List Nat := s.data.map Char.toNat

/-! ## Base64 (the `base64` crate's `general_purpose::STANDARD` engine)

Standard alphabet, padding required, length a multiple of 4, non-zero
trailing bits in the final partial group rejected. -/

/-- Value of one symbol of the standard base64 alphabet. -/
def b64Val (c : Char) : Option Nat :=
  if 'A' ≤ c ∧ c ≤ 'Z' then some (c.toNat - 65)
  else if 'a' ≤ c ∧ c ≤ 'z' then some (c.toNat - 97 + 26)
  else if '0' ≤ c ∧ c ≤ '9' then some (c.toNat - 48 + 52)
  else if c = '+' then some 62
  else if c = '/' then some 63
  else none

/-- Decode base64 symbols four at a time; `=` padding only in the final
group (with non-zero discarded bits rejected); any other length or
symbol fails. -/
def b64DecodeGroups : List Char → Option (List Nat)
  | [] => some []
  | c1 :: c2 :: c3 :: c4 :: rest =>
    if c3 = '=' ∧ c4 = '=' ∧ rest = [] then do
      let v1 ← b64Val c1
      let v2 ← b64Val c2
      if v2 % 16 = 0 then some [v1 * 4 + v2 / 16] else none
    else if c4 = '=' ∧ rest = [] then do
      let v1 ← b64Val c1
      let v2 ← b64Val c2
      let v3 ← b64Val c3
      if v3 % 4 = 0 then some [v1 * 4 + v2 / 16, (v2 % 16) * 16 + v3 / 4] else none
    else do
      let v1 ← b64Val c1
      let v2 ← b64Val c2
      let v3 ← b64Val c3
      let v4 ← b64Val c4
      let tail ← b64DecodeGroups rest
      some ((v1 * 4 + v2 / 16) :: ((v2 % 16) * 16 + v3 / 4) :: ((v3 % 4) * 64 + v4) :: tail)
  | _ => none

/-- `base64::engine::general_purpose::STANDARD.decode` on a string. -/
def b64Decode (s : String) : Option (List Nat) := b64DecodeGroups s.data

/-! ## Timestamp parsing
(`chrono::NaiveDateTime::parse_from_str(s, "%Y-%m-%dT%H:%M:%SZ")`)

Instants are modelled as `Int` seconds relative to 0001-01-01T00:00:00
in the proleptic Gregorian calendar (a monotone image of chrono's UTC
timeline, so every `<`/`>` comparison of distinct representable
instants is preserved).  chrono parses each numeric item leniently:
before every numeric field it skips leading Unicode whitespace
(`str::trim_start`), then `scan::number` consumes one up to
field-width ASCII digits greedily (so unpadded `1999-1-1T0:0:0Z`
parses); the year item additionally accepts an explicit `-` or `+`
sign followed by arbitrarily many digits.  Literal characters match
exactly, the whole input must be consumed, and the parsed fields must
form a valid `NaiveDateTime`: year within `NaiveDate`'s range
(−262143 to 262142), month 1–12, day within the month, hour ≤ 23,
minute ≤ 59, second ≤ 60 (60 being a leap second).  A scan whose value
overflows `i64` fails in chrono; every such value also violates the
year range here, so the success and failure sets agree. -/

/-- The Unicode White_Space property, as Rust's `char::is_whitespace`
(and hence `str::trim_start`, which chrono applies before every
numeric field) recognises it. -/
def isRustWhitespace (c : Char) : Bool :=
  (0x09 ≤ c.toNat ∧ c.toNat ≤ 0x0D) ∨ c.toNat = 0x20 ∨ c.toNat = 0x85 ∨
  c.toNat = 0xA0 ∨ c.toNat = 0x1680 ∨ (0x2000 ≤ c.toNat ∧ c.toNat ≤ 0x200A) ∨
  c.toNat = 0x2028 ∨ c.toNat = 0x2029 ∨ c.toNat = 0x202F ∨ c.toNat = 0x205F ∨
  c.toNat = 0x3000

/-- Up to `max` leading ASCII digits, greedily, as digit values. -/
def takeDigits : Nat → List Char → List Nat × List Char
  | 0, cs => ([], cs)
  | _ + 1, [] => ([], [])
  | max + 1, c :: cs =>
    if '0' ≤ c ∧ c ≤ '9' then
      ((c.toNat - 48) :: (takeDigits max cs).1, (takeDigits max cs).2)
    else ([], c :: cs)

/-- chrono's `scan::number(s, 1, max)`: consume one up to `max` leading
ASCII digits greedily; no digit at all is a parse failure. -/
def scanNumber (max : Nat) (cs : List Char) : Option (Nat × List Char) :=
  match takeDigits max cs with
  | ([], _) => none
  | (ds, rest) => some (ds.foldl (fun n d => n * 10 + d) 0, rest)

/-- One numeric field as chrono parses it: skip leading Unicode
whitespace, then — for the signed year item only — an optional `-` or
`+` sign with unbounded digits, otherwise one up to `width` digits. -/
def parseNumericField (signed : Bool) (width : Nat) (cs0 : List Char) :
    Option (Int × List Char) :=
  match cs0.dropWhile isRustWhitespace with
  | [] => none
  | c :: rest =>
    if signed ∧ c = '-' then
      match scanNumber rest.length rest with
      | some (v, r) => some (-(v : Int), r)
      | none => none
    else if signed ∧ c = '+' then
      match scanNumber rest.length rest with
      | some (v, r) => some ((v : Int), r)
      | none => none
    else
      match scanNumber width (c :: rest) with
      | some (v, r) => some ((v : Int), r)
      | none => none

/-- Expect a literal character (chrono matches literals exactly, with
no whitespace skipping). -/
def expectChar (c : Char) : List Char → Option (List Char)
  | [] => none
  | x :: rest => if x = c then some rest else none

/-- Proleptic-Gregorian leap-year test over `Int` years (chrono's
`4 ∣ y ∧ (¬ 100 ∣ y ∨ 400 ∣ y)` rule, sign-safe via `emod`). -/
def isLeapYearZ (y : Int) : Bool :=
  y.emod 4 = 0 && (y.emod 100 ≠ 0 || y.emod 400 = 0)

/-- Days in a month of a given year. -/
def daysInMonthZ (y m : Int) : Int :=
  if m = 2 then (if isLeapYearZ y then 29 else 28)
  else if m = 4 ∨ m = 6 ∨ m = 9 ∨ m = 11 then 30
  else 31

/-- Days in the full years before year `y`, relative to 0001-01-01
(floor division makes the formula correct for years ≤ 0 as well). -/
def daysBeforeYearZ (y : Int) : Int :=
  365 * (y - 1) + (y - 1).fdiv 4 - (y - 1).fdiv 100 + (y - 1).fdiv 400

/-- Days in the full months of year `y` before month `m`. -/
def daysBeforeMonthZ (y m : Int) : Int :=
  (List.range 13).foldl
    (fun acc k => if 1 ≤ (k : Int) ∧ (k : Int) < m then acc + daysInMonthZ y k else acc) 0

/-- Day number of a calendar date, with 0001-01-01 as day 0
(which was a Monday in the proleptic Gregorian calendar). -/
def dayNumberZ (y m d : Int) : Int := daysBeforeYearZ y + daysBeforeMonthZ y m + (d - 1)

/-- `NaiveDateTime::parse_from_str` with format `%Y-%m-%dT%H:%M:%SZ`:
on success the instant as `Int` seconds relative to
0001-01-01T00:00:00, on any parse or range failure `none`. -/
def parseDatetime (s : String) : Option Int := do
  let (y, cs) ← parseNumericField true 4 s.data
  let cs ← expectChar '-' cs
  let (mo, cs) ← parseNumericField false 2 cs
  let cs ← expectChar '-' cs
  let (d, cs) ← parseNumericField false 2 cs
  let cs ← expectChar 'T' cs
  let (h, cs) ← parseNumericField false 2 cs
  let cs ← expectChar ':' cs
  let (mi, cs) ← parseNumericField false 2 cs
  let cs ← expectChar ':' cs
  let (sec, cs) ← parseNumericField false 2 cs
  let cs ← expectChar 'Z' cs
  if cs = [] ∧ -262143 ≤ y ∧ y ≤ 262142 ∧ 1 ≤ mo ∧ mo ≤ 12 ∧ 1 ≤ d ∧
      d ≤ daysInMonthZ y mo ∧ h ≤ 23 ∧ mi ≤ 59 ∧ sec ≤ 60 then
    some (dayNumberZ y mo d * 86400 + h * 3600 + mi * 60 + sec)
  else none

/-! ## Error model (`src/error.rs`)

`AppError` has exactly four variants; there is no separate conflict
variant.  `kind` is the machine-readable classification a variant maps
to (the `WebResponseError` impl chooses the HTTP status from the variant
alone). -/

inductive AppError where
  | Db : String → AppError
  | NotFound : String → AppError
  | BadRequest : String → AppError
  | Internal : String → AppError
deriving DecidableEq, Repr

instance {ε α : Type} [DecidableEq ε] [DecidableEq α] : DecidableEq (Except ε α) :=
  fun a b =>
    match a, b with
    | .ok x, .ok y => decidable_of_iff (x = y) (by simp)
    | .error x, .error y => decidable_of_iff (x = y) (by simp)
    | .ok _, .error _ => isFalse (by simp)
    | .error _, .ok _ => isFalse (by simp)

/-- The four machine-readable error kinds of `error.rs`. -/
inductive ErrKind where
  | storage
  | notFound
  | badRequest
  | internal
deriving DecidableEq, Repr

/-- The kind of an `AppError` value (which HTTP class it maps to). -/
def AppError.kind : AppError → ErrKind
  | .Db _ => .storage
  | .NotFound _ => .notFound
  | .BadRequest _ => .badRequest
  | .Internal _ => .internal

/-! ## Validation (`src/validation.rs`) -/

def VALID_SHIP_CLASSES : List String := ["sloop", "brigantine", "galleon"]

def MAX_PLAYER_NAME_LEN : Nat := 32

/-- 512 KiB, the maximum decoded ghost-tape size. -/
def MAX_GHOST_TAPE_SIZE : Nat := 512 * 1024

def VALID_AID_TYPES : List String := ["supplies", "intel", "rep"]

def validate_ship_class (c : String) : Except AppError Unit :=
  if VALID_SHIP_CLASSES.contains c then .ok ()
  else .error (.BadRequest ("Invalid ship class: " ++ c))

def validate_player_name (name : String) : String :=
  let trimmed := name.trim
  if trimmed.isEmpty then "Anonymous"
  else String.mk (trimmed.data.take MAX_PLAYER_NAME_LEN)

def validate_score (score : Int) : Except AppError Unit :=
  if score < 0 then .error (.BadRequest "Score cannot be negative") else .ok ()

def validate_ghost_tape (tape : Option (List Nat)) : Except AppError Unit :=
  match tape with
  | some data =>
    if data.length > MAX_GHOST_TAPE_SIZE then .error (.BadRequest "Ghost tape too large")
    else .ok ()
  | none => .ok ()

def validate_aid_type (t : String) : Except AppError Unit :=
  if VALID_AID_TYPES.contains t then .ok ()
  else .error (.BadRequest ("Invalid aid type: " ++ t))

def validate_aid_amount (amount : Int) : Except AppError Unit :=
  if amount < 1 ∨ amount > 100 then .error (.BadRequest "Aid amount must be 1-100")
  else .ok ()

/-! ## Data model: the five SQLite tables, each a list of rows

`victory` and `redeemed` are stored as SQLite integers, so they are
`Int` here exactly as the services read them back. -/

structure RunRow where
  id : String
  seed : Int
  ship_class : String
  doctrine_id : String
  score : Int
  waves : Int
  victory : Int
  ships_destroyed : Int
  damage_dealt : Int
  max_combo : Int
  time_played : Rat
  max_heat : Rat
  ghost_tape : Option (List Nat)
  player_name : String
  week_key : String
deriving DecidableEq, Repr

structure RegattaRow where
  week_key : String
  seed : Int
deriving DecidableEq, Repr

structure SignalFireRow where
  code : String
  creator_run : String
  aid_type : String
  aid_amount : Int
  heat_cost : Rat
  expires_at : String
  redeemed : Int
  redeemed_at : Option String
deriving DecidableEq, Repr

structure TideOmenRow where
  week_key : String
  omen_id : String
  omen_name : String
  modifiers : String
deriving DecidableEq, Repr

structure TideContribRow where
  id : String
  week_key : String
  metric : String
  value : Rat
deriving DecidableEq, Repr

/-- The whole persistent store. -/
structure DbState where
  runs : List RunRow
  regattas : List RegattaRow
  signal_fires : List SignalFireRow
  tide_omens : List TideOmenRow
  tide_contributions : List TideContribRow
deriving DecidableEq, Repr

/-! ## RunLedger (`src/services/ghost_fleet.rs`) -/

structure RunSubmission where
  seed : Int
  ship_class : String
  doctrine_id : String
  score : Int
  waves : Int
  victory : Bool
  ships_destroyed : Int
  damage_dealt : Int
  max_combo : Int
  time_played : Rat
  max_heat : Rat
  ghost_tape : Option String
  player_name : String
deriving DecidableEq, Repr

structure RunSubmissionResult where
  id : String
  rank : Int
deriving DecidableEq, Repr

/-- The row `submit_run` inserts for a request (the generated UUID and
the current week key enter as the explicit inputs `id` and `week_key`). -/
def runRowOf (req : RunSubmission) (id week_key : String) (tape : Option (List Nat)) : RunRow :=
  { id := id, seed := req.seed, ship_class := req.ship_class, doctrine_id := req.doctrine_id,
    score := req.score, waves := req.waves, victory := if req.victory then 1 else 0,
    ships_destroyed := req.ships_destroyed, damage_dealt := req.damage_dealt,
    max_combo := req.max_combo, time_played := req.time_played, max_heat := req.max_heat,
    ghost_tape := tape, player_name := validate_player_name req.player_name,
    week_key := week_key }

/-- `SELECT COUNT(*) FROM runs WHERE score > ?1`. -/
def countGreater (runs : List RunRow) (score : Int) : Nat :=
  (runs.filter (fun r => score < r.score)).length

/-- The `with_conn` block of `submit_run`: insert the row, then read
`COUNT(*) … WHERE score > ?1` off the now-updated table. -/
def submitInsert (db : DbState) (req : RunSubmission) (id week_key : String)
    (tape : Option (List Nat)) : Except AppError RunSubmissionResult × DbState :=
  (.ok { id := id,
         rank := (countGreater (db.runs ++ [runRowOf req id week_key tape]) req.score : Int) + 1 },
   { db with runs := db.runs ++ [runRowOf req id week_key tape] })

/-- `submit_run`: validate, decode the ghost tape, then run the insert
block.  On any error the store is untouched. -/
def submit_run (db : DbState) (req : RunSubmission) (id week_key : String) :
    Except AppError RunSubmissionResult × DbState :=
  match validate_ship_class req.ship_class with
  | .error e => (.error e, db)
  | .ok _ =>
  match validate_score req.score with
  | .error e => (.error e, db)
  | .ok _ =>
  match req.ghost_tape with
  | some b64 =>
    match b64Decode b64 with
    | none => (.error (.BadRequest "Invalid ghost tape encoding"), db)
    | some decoded =>
      match validate_ghost_tape (some decoded) with
      | .error e => (.error e, db)
      | .ok _ => submitInsert db req id week_key (some decoded)
  | none => submitInsert db req id week_key none

/-! ### Regatta seed derivation and window end (`get_or_create_regatta`) -/

/-- The fixed regatta domain-separation tag. -/
def REGATTA_TAG : String := "booty-hunt-regatta"

/-- SHA-256 of the week key concatenated with the regatta tag. -/
def regattaDigest (week_key : String) : List Nat :=
  sha256 (strBytes week_key ++ strBytes REGATTA_TAG)

/-- `i64::from_be_bytes` on an 8-byte big-endian slice. -/
def i64FromBeBytes (bytes : List Nat) : Int :=
  if (bytes.foldl (fun acc b => acc * 256 + b) 0) % 2 ^ 64 < 2 ^ 63 then
    Int.ofNat ((bytes.foldl (fun acc b => acc * 256 + b) 0) % 2 ^ 64)
  else Int.ofNat ((bytes.foldl (fun acc b => acc * 256 + b) 0) % 2 ^ 64) - 2 ^ 64

/-- `u as i64`: the wrap-around cast of a `u64` value. -/
def u64AsI64 (u : Nat) : Int :=
  if u % 2 ^ 64 < 2 ^ 63 then Int.ofNat (u % 2 ^ 64)
  else Int.ofNat (u % 2 ^ 64) - 2 ^ 64

/-- The seed `get_or_create_regatta` derives when no row is stored:
`i64::from_be_bytes(digest[0..8]).unsigned_abs() as i64`. -/
def derive_regatta_seed (week_key : String) : Int :=
  u64AsI64 (i64FromBeBytes ((regattaDigest week_key).take 8)).natAbs

/-- The seed `get_or_create_regatta` settles on inside its `with_conn`
block: the stored row's seed when one exists for the week key, else the
freshly derived one (which it then writes with `INSERT OR IGNORE`). -/
def regatta_seed_for (db : DbState) (week_key : String) : Int :=
  match db.regattas.find? (fun r => r.week_key = week_key) with
  | some row => row.seed
  | none => derive_regatta_seed week_key

/-- `(8 - now.weekday().num_days_from_monday()) % 7`, then the zero case
mapped to 7 — the source's `days_until_monday` value for a weekday
`wd ∈ [0,6]` counted from Monday. -/
def days_until_monday_calc (wd : Nat) : Nat :=
  if (8 - wd) % 7 = 0 then 7 else (8 - wd) % 7

/-- `Weekday::num_days_from_monday` for a day number counted from
0001-01-01 (a Monday): Monday = 0 … Sunday = 6. -/
def num_days_from_monday (day : Nat) : Nat := day % 7

/-- The calendar date (as a day number) named by the `ends_at` string:
`now + Duration::days(days_until_monday)` formatted with
`%Y-%m-%dT00:00:00Z`, i.e. the date of `now` plus the computed count,
truncated to midnight. -/
def regatta_ends_at_day (today : Nat) : Nat :=
  today + days_until_monday_calc (num_days_from_monday today)

/-! ## AidExchange (`src/services/signal_fire.rs`)

`redeem_signal_fire` runs two separate `db.with_conn` blocks: first a
`SELECT` plus in-process checks, then an unconditional `UPDATE`.  Each
block is one atomic step; between them the lock is released.  The two
steps are modelled separately and the sequential function composes
them. -/

structure SignalFireRedeemResult where
  aid_type : String
  aid_amount : Int
  heat_cost : Rat
deriving DecidableEq, Repr

/-- ASCII whitespace as both Rust `trim` and this model see it on the
ASCII code strings the service generates. -/
def isSpaceChar (c : Char) : Bool := c = ' ' ∨ c = '\t' ∨ c = '\n' ∨ c = '\r'

/-- Strip leading and trailing whitespace from a character list. -/
def trimChars (cs : List Char) : List Char :=
  ((cs.dropWhile isSpaceChar).reverse.dropWhile isSpaceChar).reverse

/-- Uppercase one character (ASCII; signal-fire codes are ASCII). -/
def upperChar (c : Char) : Char :=
  if 'a' ≤ c ∧ c ≤ 'z' then Char.ofNat (c.toNat - 32) else c

/-- `code.trim().to_uppercase()`. -/
def normalize_code (code : String) : String :=
  String.mk ((trimChars code.data).map upperChar)

/-- `SELECT … FROM signal_fires WHERE code = ?1` (first matching row,
`QueryReturnedNoRows` as `none`). -/
def find_signal_fire (db : DbState) (code : String) : Option SignalFireRow :=
  db.signal_fires.find? (fun r => r.code = code)

/-- Outcome of the first `with_conn` block plus the in-process checks:
either a definite error, or the decision to proceed to the `UPDATE`
carrying the payload already read. -/
inductive RedeemDecision where
  | fail : AppError → RedeemDecision
  | proceed : SignalFireRedeemResult → RedeemDecision
deriving DecidableEq, Repr

/-- The read-and-check phase of `redeem_signal_fire` at instant `now`:
row lookup, the `redeemed != 0` check, and the expiry check — the
latter only when `expires_at` parses with `%Y-%m-%dT%H:%M:%SZ`. -/
def redeem_check (db : DbState) (code : String) (now : Int) : RedeemDecision :=
  match find_signal_fire db (normalize_code code) with
  | none => .fail (.NotFound "Invalid signal fire code")
  | some row =>
    if row.redeemed ≠ 0 then .fail (.BadRequest "Signal fire already redeemed")
    else
      match parseDatetime row.expires_at with
      | some exp =>
        if now > exp then .fail (.BadRequest "Signal fire expired")
        else .proceed ⟨row.aid_type, row.aid_amount, row.heat_cost⟩
      | none => .proceed ⟨row.aid_type, row.aid_amount, row.heat_cost⟩

/-- The write phase: `UPDATE signal_fires SET redeemed = 1,
redeemed_at = datetime('now') WHERE code = ?1` (`now_str` is the
store-formatted timestamp). -/
def redeem_write (db : DbState) (code : String) (now_str : String) : DbState :=
  { db with
    signal_fires := db.signal_fires.map (fun r =>
      if r.code = normalize_code code then { r with redeemed := 1, redeemed_at := some now_str }
      else r) }

/-- `redeem_signal_fire` run without interference: the check phase, and
on `proceed` the write phase. -/
def redeem_signal_fire (db : DbState) (code : String) (now : Int) (now_str : String) :
    Except AppError SignalFireRedeemResult × DbState :=
  match redeem_check db code now with
  | .fail e => (.error e, db)
  | .proceed payload => (.ok payload, redeem_write db code now_str)

/-! ### Interleaving semantics for concurrent redemption

Two callers of `redeem_signal_fire` each take the store lock twice; the
scheduler below runs their two atomic steps in any order given by a
`List Bool` (`true` steps caller 1, `false` steps caller 2). -/

/-- Where one redeeming caller stands between its atomic store steps. -/
inductive RedeemPhase where
  | ready : RedeemPhase
  | willWrite : SignalFireRedeemResult → RedeemPhase
  | done : Except AppError SignalFireRedeemResult → RedeemPhase
deriving DecidableEq, Repr

/-- One atomic step of a redeeming caller: its `SELECT`-and-check block,
or its `UPDATE` block. -/
def redeemStep (code : String) (now : Int) (now_str : String)
    (db : DbState) (p : RedeemPhase) : RedeemPhase × DbState :=
  match p with
  | .ready =>
    match redeem_check db code now with
    | .fail e => (.done (.error e), db)
    | .proceed payload => (.willWrite payload, db)
  | .willWrite payload => (.done (.ok payload), redeem_write db code now_str)
  | .done r => (.done r, db)

/-- Run two concurrent redemptions of `code` under a schedule. -/
def runRedeemSchedule (code : String) (now : Int) (now_str : String) :
    List Bool → RedeemPhase × RedeemPhase × DbState → RedeemPhase × RedeemPhase × DbState
  | [], s => s
  | b :: rest, (p1, p2, db) =>
    if b then
      let (p1', db') := redeemStep code now now_str db p1
      runRedeemSchedule code now now_str rest (p1', p2, db')
    else
      let (p2', db') := redeemStep code now now_str db p2
      runRedeemSchedule code now now_str rest (p1, p2', db')

/-! ## TideLedger (`src/services/tide_calendar.rs`) -/

/-- The fixed ordered omen catalog, exactly as the `OMENS` constant
(modifier sets kept as their raw JSON text: the services store and serve
that text verbatim, and no claim inspects inside it). -/
def OMENS : List (String × String × String) :=
  [("red_tide",       "Red Tide",       "\x7b\"armed_percent_bonus\":0.10,\"speed_multiplier\":1.05\x7d"),
   ("dead_calm",      "Dead Calm",      "\x7b\"speed_multiplier\":0.85,\"gold_multiplier\":1.15\x7d"),
   ("storm_season",   "Storm Season",   "\x7b\"force_weather\":\"stormy\",\"damage_multiplier\":1.10\x7d"),
   ("ghost_moon",     "Ghost Moon",     "\x7b\"force_weather\":\"night\",\"ghost_chance\":0.20\x7d"),
   ("golden_current", "Golden Current", "\x7b\"gold_multiplier\":1.25,\"health_multiplier\":0.90\x7d"),
   ("fog_bank",       "Fog Bank",       "\x7b\"force_weather\":\"foggy\",\"vision_multiplier\":0.70\x7d"),
   ("fair_winds",     "Fair Winds",     "\x7b\"speed_multiplier\":1.10,\"health_multiplier\":1.05\x7d")]

/-- The fixed tide domain-separation tag. -/
def TIDE_TAG : String := "booty-hunt-tide"

/-- SHA-256 of the week key concatenated with the tide tag. -/
def tideDigest (week_key : String) : List Nat :=
  sha256 (strBytes week_key ++ strBytes TIDE_TAG)

/-- `result[0] as usize % OMENS.len()` — the catalog index for a week. -/
def omen_index (week_key : String) : Nat :=
  (tideDigest week_key).headD 0 % OMENS.length

/-- `omen_for_week`: the catalog entry at the hashed index. -/
def omen_for_week (week_key : String) : String × String × String :=
  OMENS.getD (omen_index week_key) ("", "", "")

/-- `SELECT omen_id, omen_name, modifiers FROM tide_omens WHERE week_key = ?1`. -/
def tide_lookup (db : DbState) (week_key : String) : Option TideOmenRow :=
  db.tide_omens.find? (fun r => r.week_key = week_key)

/-- Modelled from the spec: the `tide_omens` table's uniqueness
constraint on `week_key` (§3: "week key (unique)", "exactly one omen per
week key").  The schema file `schema.sql` pulled in by `db.rs` is not
under `src/`, so the plain `INSERT INTO tide_omens` of `get_tide_omen`
is given the spec's store behaviour: it fails with a constraint
violation — surfaced by rusqlite as an `Err`, hence `AppError::Db` —
exactly when a row for the week key already exists. -/
def tide_insert (db : DbState) (row : TideOmenRow) : Except AppError DbState :=
  if db.tide_omens.any (fun r => r.week_key = row.week_key) then
    .error (.Db "UNIQUE constraint failed: tide_omens.week_key")
  else .ok { db with tide_omens := db.tide_omens ++ [row] }

/-- The result `get_tide_omen` returns (the modifier set kept as the
stored JSON text). -/
structure TideOmenResult where
  week_key : String
  omen_id : String
  omen_name : String
  modifiers : String
deriving DecidableEq, Repr

/-- `get_tide_omen` run without interference: read the stored row in one
`with_conn` block; if absent, derive the omen and insert it in a second
block, with an insert failure propagated to the caller unchanged. -/
def get_tide_omen (db : DbState) (week_key : String) :
    Except AppError TideOmenResult × DbState :=
  match tide_lookup db week_key with
  | some row => (.ok ⟨week_key, row.omen_id, row.omen_name, row.modifiers⟩, db)
  | none =>
    match tide_insert db ⟨week_key, (omen_for_week week_key).1,
        (omen_for_week week_key).2.1, (omen_for_week week_key).2.2⟩ with
    | .error e => (.error e, db)
    | .ok db' => (.ok ⟨week_key, (omen_for_week week_key).1,
        (omen_for_week week_key).2.1, (omen_for_week week_key).2.2⟩, db')

/-- `get_tide_omen` when a concurrent first-of-week caller's insert for
the same week key lands between its two `with_conn` blocks. -/
def get_tide_omen_raced (db : DbState) (week_key : String) (concurrent : TideOmenRow) :
    Except AppError TideOmenResult × DbState :=
  match tide_lookup db week_key with
  | some row => (.ok ⟨week_key, row.omen_id, row.omen_name, row.modifiers⟩, db)
  | none =>
    match tide_insert { db with tide_omens := db.tide_omens ++ [concurrent] }
        ⟨week_key, (omen_for_week week_key).1,
         (omen_for_week week_key).2.1, (omen_for_week week_key).2.2⟩ with
    | .error e => (.error e, { db with tide_omens := db.tide_omens ++ [concurrent] })
    | .ok db2 => (.ok ⟨week_key, (omen_for_week week_key).1,
        (omen_for_week week_key).2.1, (omen_for_week week_key).2.2⟩, db2)

/-! ## Classification helper and concrete fixtures -/

/-- Whether a service result is a validation (`BadRequest`) rejection. -/
def isValidationFailure {α : Type} : Except AppError α → Bool
  | .error (.BadRequest _) => true
  | _ => false

/-- A store with no rows at all. -/
def emptyDb : DbState := ⟨[], [], [], [], []⟩

/-- A store holding a single active, far-from-expiry signal fire. -/
def dbRace : DbState :=
  ⟨[], [], [⟨"AAAA2222", "run-1", "supplies", 10, 5, "2099-01-01T00:00:00Z", 0, none⟩], [], []⟩

/-- A store holding a single already-redeemed signal fire. -/
def dbRedeemed : DbState :=
  ⟨[], [], [⟨"BBBB3333", "run-2", "intel", 3, 5, "2099-01-01T00:00:00Z", 1,
             some "2025-01-01 00:00:00"⟩], [], []⟩

/-- A store holding an active signal fire whose stored expiry string is
not in the `%Y-%m-%dT%H:%M:%SZ` format. -/
def dbNoParse : DbState :=
  ⟨[], [], [⟨"CCCC4444", "run-3", "rep", 7, 5, "not-a-timestamp", 0, none⟩], [], []⟩

/-- A leaderboard run row with the given id and score. -/
def rankedRun (id : String) (score : Int) : RunRow :=
  ⟨id, 1, "sloop", "plunder", score, 0, 0, 0, 0, 0, 0, 0, none, "p", "2025-W41"⟩

/-- A store already holding runs with scores 10 and 5. -/
def dbRanked : DbState := ⟨[rankedRun "a" 10, rankedRun "b" 5], [], [], [], []⟩

/-- A well-formed submission with the given score and no ghost tape. -/
def sampleRun (score : Int) : RunSubmission :=
  ⟨12345, "sloop", "plunder", score, 10, false, 15, 3000, 5, 600, 45, none, "Test Player"⟩

/-- Base64 text decoding to 524289 zero bytes (one over the limit). -/
def bigTape : String := String.mk (List.replicate 699052 'A')

/-- The 524289 decoded bytes of `bigTape`. -/
def bigTapeBytes : List Nat := List.replicate 524289 0

/-- Base64 text decoding to exactly 524288 zero bytes. -/
def exactTape : String := String.mk (List.replicate 699048 'A' ++ ['A', 'A', 'A', '='])

/-- The 524288 decoded bytes of `exactTape`. -/
def exactTapeBytes : List Nat := List.replicate 524286 0 ++ [0, 0]

/-- A submission carrying the over-limit tape. -/
def bigReq : RunSubmission := { sampleRun 100 with ghost_tape := some bigTape }

/-- A submission carrying the exactly-at-limit tape. -/
def exactReq : RunSubmission := { sampleRun 100 with ghost_tape := some exactTape }

/-- The modifier JSON stored for the `red_tide` omen (entry 0 of `OMENS`). -/
def redTideJson : String := "\x7b\"armed_percent_bonus\":0.10,\"speed_multiplier\":1.05\x7d"

/-! ## Helper lemmas -/

/-- Appending a row whose score is not strictly greater leaves the
strictly-greater count unchanged: the freshly inserted run never counts
against its own rank. -/
theorem countGreater_append (runs : List RunRow) (row : RunRow) (s : Int)
    (h : ¬ s < row.score) :
    countGreater (runs ++ [row]) s = countGreater runs s := by
  simp [countGreater, List.filter_append, h]

/-- The shape of `submitInsert`, with the rank rewritten to count only
the previously stored runs. -/
theorem submitInsert_spec (db : DbState) (req : RunSubmission) (id wk : String)
    (tape : Option (List Nat)) :
    submitInsert db req id wk tape =
      (.ok ⟨id, (countGreater db.runs req.score : Int) + 1⟩,
       { db with runs := db.runs ++ [runRowOf req id wk tape] }) := by
  unfold submitInsert
  rw [countGreater_append db.runs (runRowOf req id wk tape) req.score (lt_irrefl req.score)]

/-- `validate_ship_class` either accepts or rejects with a `BadRequest`. -/
theorem validate_ship_class_cases (c : String) :
    validate_ship_class c = .ok () ∨
    ∃ m, validate_ship_class c = .error (.BadRequest m) := by
  unfold validate_ship_class
  split
  · exact Or.inl rfl
  · exact Or.inr ⟨_, rfl⟩

/-- `validate_score` either accepts or rejects with a `BadRequest`. -/
theorem validate_score_cases (s : Int) :
    validate_score s = .ok () ∨ ∃ m, validate_score s = .error (.BadRequest m) := by
  unfold validate_score
  split
  · exact Or.inr ⟨_, rfl⟩
  · exact Or.inl rfl

/-- Decoding `4 * n` letters `A` prepends `3 * n` zero bytes to whatever
the remainder decodes to. -/
theorem b64DecodeGroups_replicate_A (n : Nat) (t : List Char) (res : List Nat)
    (h : b64DecodeGroups t = some res) :
    b64DecodeGroups (List.replicate (4 * n) 'A' ++ t) =
      some (List.replicate (3 * n) 0 ++ res) := by
  induction n with
  | zero => simpa using h
  | succ k ih =>
    have e4 : 4 * (k + 1) = 4 + 4 * k := by ring
    have e3 : 3 * (k + 1) = 3 + 3 * k := by ring
    have hA : b64Val 'A' = some 0 := by decide
    rw [e4, e3, List.replicate_add, List.replicate_add, List.append_assoc]
    have hrep4 : List.replicate 4 'A' = ['A', 'A', 'A', 'A'] := rfl
    have hrep3 : List.replicate 3 (0 : Nat) = [0, 0, 0] := rfl
    rw [hrep4, hrep3]
    simp only [List.cons_append, List.nil_append]
    rw [b64DecodeGroups]
    simp [hA, ih]

/-- A `find?` that fails on `l` finds an appended element exactly when
the predicate holds of it. -/
theorem find?_append_singleton {α : Type} (p : α → Bool) (l : List α) (x : α)
    (h : l.find? p = none) :
    (l ++ [x]).find? p = if p x then some x else none := by
  induction l with
  | nil =>
    simp only [List.nil_append]
    cases hpx : p x with
    | true => simp [List.find?_cons_of_pos _ hpx]
    | false =>
      have hnx : ¬ p x = true := by simp [hpx]
      simp [List.find?_cons_of_neg _ hnx, hpx]
  | cons a t ih =>
    cases hpa : p a with
    | true =>
      rw [List.find?_cons_of_pos _ hpa] at h
      exact absurd h (by simp)
    | false =>
      have hna : ¬ p a = true := by simp [hpa]
      rw [List.find?_cons_of_neg _ hna] at h
      rw [List.cons_append, List.find?_cons_of_neg _ hna]
      exact ih h

/-- If no element satisfies the predicate (`any` is `false`), `find?`
fails. -/
theorem find?_eq_none_of_any_false {α : Type} (p : α → Bool) (l : List α)
    (h : l.any p = false) : l.find? p = none := by
  induction l with
  | nil => rfl
  | cons a t ih =>
    simp only [List.any_cons, Bool.or_eq_false_iff] at h
    rw [List.find?, h.1]
    exact ih h.2

/-- A list is pointwise related to its own map whenever `R x (f x)`
holds everywhere. -/
theorem forall₂_map_self {α : Type} (R : α → α → Prop) (f : α → α) (l : List α)
    (h : ∀ x, R x (f x)) : List.Forall₂ R l (l.map f) := by
  induction l with
  | nil => exact List.Forall₂.nil
  | cons a t ih => exact List.Forall₂.cons (h a) ih

/-! ## The claims -/

/-- C1: `redeem_signal_fire` is not an atomic check-and-set: its
SELECT-and-check block and its UPDATE block take the store lock
separately, and under the interleaving read₁ read₂ write₁ write₂ two
concurrent redemptions of the same not-yet-redeemed code both finish
with the aid payload — refuting "at most one attempt succeeds". -/
theorem c1_concurrent_redeem_double_success :
    (runRedeemSchedule "AAAA2222" 0 "2025-10-12 00:00:00" [true, false, true, false]
        (.ready, .ready, dbRace)).1 = .done (.ok ⟨"supplies", 10, 5⟩) ∧
    (runRedeemSchedule "AAAA2222" 0 "2025-10-12 00:00:00" [true, false, true, false]
        (.ready, .ready, dbRace)).2.1 = .done (.ok ⟨"supplies", 10, 5⟩) := by
  exact ⟨by decide, by decide⟩

/-- C2: a valid submission is persisted, and the returned rank is one
plus the number of previously stored runs — across all weeks and seeds —
whose score is strictly greater, computed at insert time (equal scores
are not counted, so ties share the rank of the tie's top member). -/
theorem c2_submit_run_rank_snapshot (db : DbState) (req : RunSubmission)
    (id wk : String) (tape : Option (List Nat))
    (hclass : validate_ship_class req.ship_class = .ok ())
    (hscore : validate_score req.score = .ok ())
    (htape : (req.ghost_tape = none ∧ tape = none) ∨
      ∃ b64 data, req.ghost_tape = some b64 ∧ b64Decode b64 = some data ∧
        data.length ≤ MAX_GHOST_TAPE_SIZE ∧ tape = some data) :
    submit_run db req id wk =
      (.ok ⟨id, (countGreater db.runs req.score : Int) + 1⟩,
       { db with runs := db.runs ++ [runRowOf req id wk tape] }) := by
  rcases htape with ⟨hnone, htnone⟩ | ⟨b64, data, hb, hd, hle, htsome⟩
  · rw [htnone]
    simp only [submit_run, hclass, hscore, hnone]
    exact submitInsert_spec db req id wk none
  · rw [htsome]
    have hv : validate_ghost_tape (some data) = .ok () := by
      simp only [validate_ghost_tape]
      rw [if_neg (Nat.not_lt.mpr hle)]
    simp only [submit_run, hclass, hscore, hb, hd, hv]
    exact submitInsert_spec db req id wk (some data)

/-- C2 witness: submitting score 7 against stored scores 10 and 5 is
persisted and ranked by the one-plus-strictly-greater count. -/
theorem c2_witness :
    submit_run dbRanked (sampleRun 7) "id-9" "2025-W42" =
      (.ok ⟨"id-9", (countGreater dbRanked.runs (sampleRun 7).score : Int) + 1⟩,
       { dbRanked with
         runs := dbRanked.runs ++ [runRowOf (sampleRun 7) "id-9" "2025-W42" none] }) :=
  c2_submit_run_rank_snapshot dbRanked (sampleRun 7) "id-9" "2025-W42" none
    (by decide) (by decide) (Or.inl ⟨rfl, rfl⟩)

/-- C3: the window-end computation is off by one day — `days_until_monday`
is `(8 - wd) % 7` (`0 ↦ 7`) instead of `(7 - wd) % 7` (`0 ↦ 7`), so from a
Monday instant the computed end is 1 day ahead (not 7), and for every
instant the `ends_at` date falls on a Tuesday (weekday 1), never the
Monday 00:00 UTC the claim requires. -/
theorem c3_ends_at_lands_on_tuesday :
    days_until_monday_calc 0 = 1 ∧
    ∀ day : Nat, num_days_from_monday (regatta_ends_at_day day) = 1 := by
  refine ⟨rfl, fun day => ?_⟩
  unfold regatta_ends_at_day num_days_from_monday days_until_monday_calc
  split <;> omega

/-- C4 counterexample: an already-redeemed code is refused with
`AppError::BadRequest` — the very same kind that validation rejections
carry — so no distinct conflict kind separates entity-state refusals
from validation errors. -/
theorem c4_conflict_kind_not_distinct :
    redeem_check dbRedeemed "BBBB3333" 0 =
      .fail (.BadRequest "Signal fire already redeemed") ∧
    validate_score (-1) = .error (.BadRequest "Score cannot be negative") ∧
    (AppError.BadRequest "Signal fire already redeemed").kind =
      (AppError.BadRequest "Score cannot be negative").kind := by
  exact ⟨by decide, by decide, rfl⟩

/-- C4 (amended): the failure priority of `redeem_signal_fire` — unknown
code gives `NotFound`, an already-redeemed row gives `BadRequest`, an
expired row (stored expiry parsed and before "now") gives `BadRequest`;
both state-based refusals share the `BadRequest` kind with validation
errors, since `AppError` has no separate conflict variant. -/
theorem c4_redeem_failure_order (db : DbState) (code : String) (now : Int) :
    (find_signal_fire db (normalize_code code) = none →
      redeem_check db code now = .fail (.NotFound "Invalid signal fire code")) ∧
    (∀ row, find_signal_fire db (normalize_code code) = some row →
      row.redeemed ≠ 0 →
      redeem_check db code now = .fail (.BadRequest "Signal fire already redeemed")) ∧
    (∀ row exp, find_signal_fire db (normalize_code code) = some row →
      row.redeemed = 0 → parseDatetime row.expires_at = some exp → now > exp →
      redeem_check db code now = .fail (.BadRequest "Signal fire expired")) := by
  refine ⟨fun h => ?_, fun row h hr => ?_, fun row exp h hr hp hn => ?_⟩
  · simp only [redeem_check, h]
  · simp only [redeem_check, h]
    rw [if_pos hr]
  · simp only [redeem_check, h]
    rw [if_neg (not_not_intro hr), hp]
    simp [hn]

/-- C4 witness: the stored already-redeemed code is refused with the
`BadRequest` kind at a concrete instant. -/
theorem c4_witness :
    redeem_check dbRedeemed "BBBB3333" 5 =
      .fail (.BadRequest "Signal fire already redeemed") :=
  (c4_redeem_failure_order dbRedeemed "BBBB3333" 5).2.1
    ⟨"BBBB3333", "run-2", "intel", 3, 5, "2099-01-01T00:00:00Z", 1,
     some "2025-01-01 00:00:00"⟩ (by decide) (by decide)

/-- C5: `get_tide_omen`'s creation path is a plain `INSERT`, not an
insert-if-absent: when a concurrent first-of-week caller's row lands
between its read and its insert, the uniqueness violation surfaces to
the caller as a store (`Db`) error instead of being resolved by
re-reading the stored omen. -/
theorem c5_tide_create_race_surfaces_error :
    (get_tide_omen_raced emptyDb "2025-W42"
        ⟨"2025-W42", "red_tide", "Red Tide", redTideJson⟩).1 =
      .error (.Db "UNIQUE constraint failed: tide_omens.week_key") := by
  decide

/-- Range of `i64::from_be_bytes`: a signed 64-bit value. -/
theorem i64FromBeBytes_range (bytes : List Nat) :
    -(2 ^ 63) ≤ i64FromBeBytes bytes ∧ i64FromBeBytes bytes < 2 ^ 63 := by
  have hu : (bytes.foldl (fun acc b => acc * 256 + b) 0) % 2 ^ 64 < 2 ^ 64 :=
    Nat.mod_lt _ (by norm_num)
  unfold i64FromBeBytes
  simp only [Int.ofNat_eq_coe]
  constructor <;> split <;> omega

/-- C6: whenever the first 8 digest bytes are not the single value
`i64::MIN` (on which `unsigned_abs() as i64` would wrap), the derived
regatta seed equals the absolute value of the signed big-endian 64-bit
integer they form, is non-negative, and is what `get_or_create_regatta`
uses whenever no seed row is stored for the week — a pure function of
the week key alone. -/
theorem c6_regatta_seed_abs (wk : String)
    (hmin : i64FromBeBytes ((regattaDigest wk).take 8) ≠ -(2 ^ 63)) :
    derive_regatta_seed wk = |i64FromBeBytes ((regattaDigest wk).take 8)| ∧
    0 ≤ derive_regatta_seed wk ∧
    (∀ db : DbState, db.regattas.find? (fun r => r.week_key = wk) = none →
      regatta_seed_for db wk = derive_regatta_seed wk) := by
  obtain ⟨hlo, hhi⟩ := i64FromBeBytes_range ((regattaDigest wk).take 8)
  have habs : |i64FromBeBytes ((regattaDigest wk).take 8)| =
      ((i64FromBeBytes ((regattaDigest wk).take 8)).natAbs : Int) :=
    Int.abs_eq_natAbs _
  have hn : (i64FromBeBytes ((regattaDigest wk).take 8)).natAbs < 2 ^ 63 := by
    have h1 : |i64FromBeBytes ((regattaDigest wk).take 8)| < 2 ^ 63 :=
      abs_lt.mpr ⟨by omega, hhi⟩
    rw [habs] at h1
    exact_mod_cast h1
  have hd : derive_regatta_seed wk =
      ((i64FromBeBytes ((regattaDigest wk).take 8)).natAbs : Int) := by
    unfold derive_regatta_seed u64AsI64
    rw [Nat.mod_eq_of_lt (by omega)]
    rw [if_pos hn]
    simp only [Int.ofNat_eq_coe]
  refine ⟨by rw [hd, habs], by rw [hd]; exact_mod_cast Nat.zero_le _, ?_⟩
  intro db hnone
  unfold regatta_seed_for
  rw [hnone]

/-- C6 witness: the 2025-W42 week key, whose digest prefix is not the
wrapping value, gets a non-negative seed equal to the absolute value. -/
theorem c6_witness :
    derive_regatta_seed "2025-W42" =
      |i64FromBeBytes ((regattaDigest "2025-W42").take 8)| ∧
    0 ≤ derive_regatta_seed "2025-W42" :=
  ⟨(c6_regatta_seed_abs "2025-W42" (by decide)).1,
   (c6_regatta_seed_abs "2025-W42" (by decide)).2.1⟩

/-- C7: the omen catalog has exactly 7 fixed entries, the hashed index
(first digest byte mod 7) is always in bounds, the selected omen is the
catalog entry at that index, and a second fetch in the same week returns
exactly what the first fetch stored. -/
theorem c7_omen_selection (wk : String) :
    OMENS.length = 7 ∧
    omen_index wk < OMENS.length ∧
    (∀ h : omen_index wk < OMENS.length,
      omen_for_week wk = OMENS.get ⟨omen_index wk, h⟩) ∧
    (∀ db r1 db1, get_tide_omen db wk = (.ok r1, db1) →
      (get_tide_omen db1 wk).1 = .ok r1) := by
  refine ⟨rfl, ?_, fun h => ?_, fun db r1 db1 hfetch => ?_⟩
  · unfold omen_index
    exact Nat.mod_lt _ (by decide)
  · unfold omen_for_week
    exact List.getD_eq_get OMENS ("", "", "") h
  · cases hl : tide_lookup db wk with
    | some row =>
      simp only [get_tide_omen, hl, Prod.mk.injEq] at hfetch
      obtain ⟨hr1, hdb1⟩ := hfetch
      rw [← hdb1]
      simp only [get_tide_omen, hl, hr1]
    | none =>
      simp only [get_tide_omen, hl] at hfetch
      by_cases hany : (db.tide_omens.any fun r => r.week_key = wk) = true
      · have hte : tide_insert db
            ⟨wk, (omen_for_week wk).1, (omen_for_week wk).2.1, (omen_for_week wk).2.2⟩ =
            .error (.Db "UNIQUE constraint failed: tide_omens.week_key") := by
          simp only [tide_insert]
          rw [if_pos hany]
        rw [hte] at hfetch
        simp at hfetch
      · have hfalse : (db.tide_omens.any fun r => r.week_key = wk) = false := by
          revert hany
          cases db.tide_omens.any fun r => r.week_key = wk <;> simp
        have hte : tide_insert db
            ⟨wk, (omen_for_week wk).1, (omen_for_week wk).2.1, (omen_for_week wk).2.2⟩ =
            .ok { db with tide_omens := db.tide_omens ++
              [⟨wk, (omen_for_week wk).1, (omen_for_week wk).2.1, (omen_for_week wk).2.2⟩] } := by
          simp only [tide_insert]
          rw [if_neg hany]
        rw [hte] at hfetch
        simp only [Prod.mk.injEq, Except.ok.injEq] at hfetch
        obtain ⟨hr1, hdb1⟩ := hfetch
        have hnone : db.tide_omens.find? (fun r => r.week_key = wk) = none :=
          find?_eq_none_of_any_false _ _ hfalse
        have hlk : tide_lookup
            { db with tide_omens := db.tide_omens ++
              [⟨wk, (omen_for_week wk).1, (omen_for_week wk).2.1, (omen_for_week wk).2.2⟩] }
            wk = some ⟨wk, (omen_for_week wk).1, (omen_for_week wk).2.1,
              (omen_for_week wk).2.2⟩ := by
          unfold tide_lookup
          rw [find?_append_singleton _ _ _ hnone]
          simp
        rw [← hdb1]
        simp only [get_tide_omen, hlk, ← hr1]

/-- C7 witness: in a store already holding the 2025-W42 omen row created
by a first fetch, a second fetch returns that stored omen. -/
theorem c7_witness :
    (get_tide_omen
        (⟨[], [], [], [⟨"2025-W42", "red_tide", "Red Tide", redTideJson⟩], []⟩ : DbState)
        "2025-W42").1 =
      .ok ⟨"2025-W42", "red_tide", "Red Tide", redTideJson⟩ :=
  (c7_omen_selection "2025-W42").2.2.2 emptyDb
    ⟨"2025-W42", "red_tide", "Red Tide", redTideJson⟩
    ⟨[], [], [], [⟨"2025-W42", "red_tide", "Red Tide", redTideJson⟩], []⟩ (by decide)

/-- C8: a decoded ghost tape strictly over 512 KiB makes `submit_run`
fail with a validation (`BadRequest`) error and leave the store
untouched, while a tape of exactly 512 KiB passes the size check, and an
otherwise valid submission carrying it is persisted. -/
theorem c8_ghost_tape_size_gate (db : DbState) (req : RunSubmission)
    (id wk b64 : String) (data : List Nat)
    (hb : req.ghost_tape = some b64) (hd : b64Decode b64 = some data) :
    (data.length > MAX_GHOST_TAPE_SIZE →
      isValidationFailure (submit_run db req id wk).1 = true ∧
      (submit_run db req id wk).2 = db) ∧
    (data.length = MAX_GHOST_TAPE_SIZE → validate_ghost_tape (some data) = .ok ()) ∧
    (data.length = MAX_GHOST_TAPE_SIZE →
      validate_ship_class req.ship_class = .ok () →
      validate_score req.score = .ok () →
      submit_run db req id wk =
        (.ok ⟨id, (countGreater db.runs req.score : Int) + 1⟩,
         { db with runs := db.runs ++ [runRowOf req id wk (some data)] })) := by
  refine ⟨fun hbig => ?_, fun hex => ?_, fun hex hclass hscore => ?_⟩
  · have hv : validate_ghost_tape (some data) =
        .error (.BadRequest "Ghost tape too large") := by
      simp only [validate_ghost_tape]
      rw [if_pos hbig]
    rcases validate_ship_class_cases req.ship_class with hc | ⟨m, hc⟩
    · rcases validate_score_cases req.score with hs | ⟨m, hs⟩
      · simp only [submit_run, hc, hs, hb, hd, hv]
        exact ⟨by trivial, by trivial⟩
      · simp only [submit_run, hc, hs]
        exact ⟨by trivial, by trivial⟩
    · simp only [submit_run, hc]
      exact ⟨by trivial, by trivial⟩
  · simp only [validate_ghost_tape]
    rw [if_neg (by omega)]
  · have hv : validate_ghost_tape (some data) = .ok () := by
      simp only [validate_ghost_tape]
      rw [if_neg (by omega)]
    simp only [submit_run, hclass, hscore, hb, hd, hv]
    exact submitInsert_spec db req id wk (some data)

/-- Decoding `bigTape` yields 524289 zero bytes. -/
theorem bigTape_decodes : b64Decode bigTape = some bigTapeBytes := by
  have h0 : b64DecodeGroups [] = some [] := rfl
  have h := b64DecodeGroups_replicate_A 174763 [] [] h0
  have e4 : 4 * 174763 = 699052 := by norm_num
  have e3 : 3 * 174763 = 524289 := by norm_num
  rw [e4, e3, List.append_nil, List.append_nil] at h
  exact h

/-- Decoding `exactTape` yields 524288 zero bytes. -/
theorem exactTape_decodes : b64Decode exactTape = some exactTapeBytes := by
  have h0 : b64DecodeGroups ['A', 'A', 'A', '='] = some [0, 0] := by decide
  have h := b64DecodeGroups_replicate_A 174762 ['A', 'A', 'A', '='] [0, 0] h0
  have e4 : 4 * 174762 = 699048 := by norm_num
  have e3 : 3 * 174762 = 524286 := by norm_num
  rw [e4, e3] at h
  exact h

/-- C8 witness: the one-byte-over tape is rejected as validation with no
write; the exactly-512-KiB tape passes the size check and the
submission is persisted. -/
theorem c8_witness :
    (isValidationFailure (submit_run emptyDb bigReq "r1" "2025-W42").1 = true ∧
     (submit_run emptyDb bigReq "r1" "2025-W42").2 = emptyDb) ∧
    validate_ghost_tape (some exactTapeBytes) = .ok () ∧
    submit_run emptyDb exactReq "r2" "2025-W42" =
      (.ok ⟨"r2", (countGreater emptyDb.runs exactReq.score : Int) + 1⟩,
       { emptyDb with
         runs := emptyDb.runs ++
           [runRowOf exactReq "r2" "2025-W42" (some exactTapeBytes)] }) := by
  have hbig : bigTapeBytes.length > MAX_GHOST_TAPE_SIZE := by
    show (List.replicate 524289 (0 : Nat)).length > MAX_GHOST_TAPE_SIZE
    rw [List.length_replicate]
    norm_num [MAX_GHOST_TAPE_SIZE]
  have hex : exactTapeBytes.length = MAX_GHOST_TAPE_SIZE := by
    show (List.replicate 524286 (0 : Nat) ++ [0, 0]).length = MAX_GHOST_TAPE_SIZE
    rw [List.length_append, List.length_replicate]
    norm_num [MAX_GHOST_TAPE_SIZE]
  exact ⟨(c8_ghost_tape_size_gate emptyDb bigReq "r1" "2025-W42" bigTape bigTapeBytes
      rfl bigTape_decodes).1 hbig,
    (c8_ghost_tape_size_gate emptyDb exactReq "r2" "2025-W42" exactTape exactTapeBytes
      rfl exactTape_decodes).2.1 hex,
    (c8_ghost_tape_size_gate emptyDb exactReq "r2" "2025-W42" exactTape exactTapeBytes
      rfl exactTape_decodes).2.2 hex (by decide) (by decide)⟩

/-- C9: when the stored `expires_at` does not parse with
`%Y-%m-%dT%H:%M:%SZ`, the expiry check is skipped entirely, so an
unredeemed code succeeds at every instant `now` — it is never refused
as expired. -/
theorem c9_unparseable_expiry_skipped (db : DbState) (code : String)
    (now : Int) (ns : String) (row : SignalFireRow)
    (hfind : find_signal_fire db (normalize_code code) = some row)
    (hred : row.redeemed = 0)
    (hparse : parseDatetime row.expires_at = none) :
    redeem_signal_fire db code now ns =
      (.ok ⟨row.aid_type, row.aid_amount, row.heat_cost⟩,
       redeem_write db code ns) := by
  have hc : redeem_check db code now =
      .proceed ⟨row.aid_type, row.aid_amount, row.heat_cost⟩ := by
    simp only [redeem_check, hfind]
    rw [if_neg (not_not_intro hred), hparse]
  simp only [redeem_signal_fire, hc]

/-- C9 witness: the code whose stored expiry is `not-a-timestamp` is
redeemable even at a very late instant. -/
theorem c9_witness :
    redeem_signal_fire dbNoParse "CCCC4444" 999999999999 "2099-12-31 23:59:59" =
      (.ok ⟨"rep", 7, 5⟩, redeem_write dbNoParse "CCCC4444" "2099-12-31 23:59:59") :=
  c9_unparseable_expiry_skipped dbNoParse "CCCC4444" 999999999999
    "2099-12-31 23:59:59"
    ⟨"CCCC4444", "run-3", "rep", 7, 5, "not-a-timestamp", 0, none⟩
    (by decide) (by decide) (by decide)

/-- C10: a successful redemption touches only the signal-fires table,
and there only the `redeemed` flag and redemption timestamp of the rows
whose code is the normalized input; every other field of those rows,
every row with a different code, and the runs, regattas, tide-omens and
tide-contributions tables are unchanged. -/
theorem c10_redeem_frame (db : DbState) (code : String) (now : Int)
    (ns : String) (p : SignalFireRedeemResult)
    (h : (redeem_signal_fire db code now ns).1 = .ok p) :
    (redeem_signal_fire db code now ns).2.runs = db.runs ∧
    (redeem_signal_fire db code now ns).2.regattas = db.regattas ∧
    (redeem_signal_fire db code now ns).2.tide_omens = db.tide_omens ∧
    (redeem_signal_fire db code now ns).2.tide_contributions = db.tide_contributions ∧
    List.Forall₂ (fun r r' : SignalFireRow =>
        r'.code = r.code ∧ r'.creator_run = r.creator_run ∧
        r'.aid_type = r.aid_type ∧ r'.aid_amount = r.aid_amount ∧
        r'.heat_cost = r.heat_cost ∧ r'.expires_at = r.expires_at ∧
        (r.code ≠ normalize_code code → r' = r) ∧
        (r.code = normalize_code code → r'.redeemed = 1 ∧ r'.redeemed_at = some ns))
      db.signal_fires (redeem_signal_fire db code now ns).2.signal_fires := by
  have hw : (redeem_signal_fire db code now ns).2 = redeem_write db code ns := by
    cases hc : redeem_check db code now with
    | fail e =>
      simp only [redeem_signal_fire, hc] at h
      exact absurd h (by simp)
    | proceed q =>
      simp only [redeem_signal_fire, hc]
  rw [hw]
  refine ⟨rfl, rfl, rfl, rfl, ?_⟩
  unfold redeem_write
  refine forall₂_map_self _ _ _ (fun r => ?_)
  by_cases hc : r.code = normalize_code code
  · simp [hc]
  · simp [hc]

/-- C10 witness: redeeming the single active code of `dbRace` leaves
every other table equal and rewrites only that row's redemption state. -/
theorem c10_witness :
    (redeem_signal_fire dbRace "AAAA2222" 0 "ts").2.runs = dbRace.runs ∧
    (redeem_signal_fire dbRace "AAAA2222" 0 "ts").2.regattas = dbRace.regattas ∧
    (redeem_signal_fire dbRace "AAAA2222" 0 "ts").2.tide_omens = dbRace.tide_omens ∧
    (redeem_signal_fire dbRace "AAAA2222" 0 "ts").2.tide_contributions =
      dbRace.tide_contributions ∧
    List.Forall₂ (fun r r' : SignalFireRow =>
        r'.code = r.code ∧ r'.creator_run = r.creator_run ∧
        r'.aid_type = r.aid_type ∧ r'.aid_amount = r.aid_amount ∧
        r'.heat_cost = r.heat_cost ∧ r'.expires_at = r.expires_at ∧
        (r.code ≠ normalize_code "AAAA2222" → r' = r) ∧
        (r.code = normalize_code "AAAA2222" →
          r'.redeemed = 1 ∧ r'.redeemed_at = some "ts"))
      dbRace.signal_fires (redeem_signal_fire dbRace "AAAA2222" 0 "ts").2.signal_fires :=
  c10_redeem_frame dbRace "AAAA2222" 0 "ts" ⟨"supplies", 10, 5⟩ (by decide)

end BootyHunt
